import Mathlib

/-!
Verification of the request-validation and capability-filtering core of a
GitHub MCP server (pkg/github/server.go).

The embedding models:
- the dynamically-typed argument bag handed to a tool handler
  (Go: map[string]interface with JSON-like scalar values),
- the typed parameter accessors requiredParam, requiredInt, optionalParam,
  optionalIntParam, optionalIntParamWithDefault, optionalStringArrayParam,
- the capability filter shouldIncludeTool and the tool-registration sequence
  performed by NewServer (including the readOnly gating of mutating tools).

Go functions return a pair (value, error); we model that shape directly as
a product with an Option ParamError in the second component. Go float64
numbers are modelled as rationals; the Go conversion int(v) truncates
toward zero, modelled by ratTrunc.
-/

/-- A dynamic JSON-like value stored in the argument bag, as the Go code
distinguishes them by runtime type assertion: string, float64 (all JSON
numbers), bool, a native string slice, and a slice of dynamic values. -/
inductive DynValue where
  | str (s : String)
  | num (q : Rat)
  | boolean (b : Bool)
  | strArray (xs : List String)
  | anyArray (xs : List DynValue)

/-- The argument bag of one call: a partial map from parameter name to
dynamic value (map lookup with presence flag in Go). -/
abbrev ArgBag := String → Option DynValue

/-- Errors produced by the parameter accessors, one constructor per distinct
error produced in server.go. missingParameter corresponds to the message
"missing required parameter"; the other three are the TypeMismatch family:
wrongType is "parameter is not of type T", elemNotString is
"parameter is not of type string" for an array element, and
notStringArray is "parameter could not be coerced to a string slice". -/
inductive ParamError where
  | missingParameter (p : String)
  | wrongType (p : String)
  | elemNotString (p : String)
  | notStringArray (p : String)
deriving DecidableEq

/-- Go type assertion v.(string). -/
def DynValue.asString : DynValue → Option String
  | .str s => some s
  | _ => none

/-- Go type assertion v.(float64). -/
def DynValue.asNum : DynValue → Option Rat
  | .num q => some q
  | _ => none

/-- Go type assertion v.(bool). -/
def DynValue.asBool : DynValue → Option Bool
  | .boolean b => some b
  | _ => none

/-- Truncation of a rational toward zero, the semantics of Go's int(v)
conversion from float64. Int.tdiv is T-division (rounds toward zero). -/
def ratTrunc (q : Rat) : Int := Int.tdiv q.num q.den

/-- A Go target type for the generic accessors: its zero value and its
runtime type assertion from a dynamic value. -/
structure GoType (T : Type) where
  zero : T
  cast : DynValue → Option T

/-- The Go string instantiation: zero value is the empty string. -/
def goString : GoType String := ⟨"", DynValue.asString⟩

/-- The Go float64 instantiation: zero value is the number 0. -/
def goFloat : GoType Rat := ⟨0, DynValue.asNum⟩

/-- The Go bool instantiation: zero value is false. -/
def goBool : GoType Bool := ⟨false, DynValue.asBool⟩

/-- requiredParam from server.go: fails when the name is absent, when the
value does not assert to T, or when the asserted value equals the zero value
of T; otherwise returns the stored value. -/
def requiredParam {T : Type} [DecidableEq T] (gt : GoType T) (r : ArgBag)
    (p : String) : T × Option ParamError :=
  match r p with
  | none => (gt.zero, some (.missingParameter p))
  | some v =>
    match gt.cast v with
    | none => (gt.zero, some (.wrongType p))
    | some x =>
      if x = gt.zero then (gt.zero, some (.missingParameter p)) else (x, none)

/-- requiredInt from server.go: requiredParam at float64, then int(v). -/
def requiredInt (r : ArgBag) (p : String) : Int × Option ParamError :=
  match requiredParam goFloat r p with
  | (_, some e) => (0, some e)
  | (v, none) => (ratTrunc v, none)

/-- optionalParam from server.go: zero value without error when absent,
type-mismatch error when the assertion fails, otherwise the stored value. -/
def optionalParam {T : Type} (gt : GoType T) (r : ArgBag)
    (p : String) : T × Option ParamError :=
  match r p with
  | none => (gt.zero, none)
  | some v =>
    match gt.cast v with
    | none => (gt.zero, some (.wrongType p))
    | some x => (x, none)

/-- optionalIntParam from server.go: optionalParam at float64, then int(v). -/
def optionalIntParam (r : ArgBag) (p : String) : Int × Option ParamError :=
  match optionalParam goFloat r p with
  | (_, some e) => (0, some e)
  | (v, none) => (ratTrunc v, none)

/-- optionalIntParamWithDefault from server.go: optionalIntParam, then the
default is substituted when the resolved int equals 0. -/
def optionalIntParamWithDefault (r : ArgBag) (p : String) (d : Int) :
    Int × Option ParamError :=
  match optionalIntParam r p with
  | (_, some e) => (0, some e)
  | (v, none) => if v = 0 then (d, none) else (v, none)

/-- The element loop of optionalStringArrayParam: every element of the
dynamic slice must assert to string, otherwise the whole coercion fails. -/
def coerceStringList : List DynValue → Option (List String)
  | [] => some []
  | d :: ds =>
    match d.asString with
    | none => none
    | some s => (coerceStringList ds).map (fun ss => s :: ss)

/-- optionalStringArrayParam from server.go: empty slice when absent, a
native string slice as-is, element-wise coercion of a dynamic slice
(all-or-nothing), and a coercion error on any other runtime type. -/
def optionalStringArrayParam (r : ArgBag) (p : String) :
    List String × Option ParamError :=
  match r p with
  | none => ([], none)
  | some (.strArray v) => (v, none)
  | some (.anyArray v) =>
    match coerceStringList v with
    | none => ([], some (.elemNotString p))
    | some ss => (ss, none)
  | some _ => ([], some (.notStringArray p))

/-- The comma-separated tool-list parsing in NewServer: the empty string
yields the empty set, otherwise split on commas and trim whitespace. -/
def parseToolList (s : String) : List String :=
  if s = "" then [] else (s.splitOn ",").map (fun t => t.trim)

/-- shouldIncludeTool from NewServer: when the include list is non-empty it
alone decides membership; otherwise a tool is included exactly when it is
not in the exclude list. -/
def shouldIncludeTool (includeList excludeList : List String)
    (toolName : String) : Bool :=
  if includeList.length > 0 then includeList.contains toolName
  else !(excludeList.contains toolName)

/-- The tools registered by NewServer, identified by the Go constructor
function called for each, in their order of appearance in server.go. -/
inductive ToolId where
  | getIssue | searchIssues | listIssues
  | createIssue | addIssueComment | updateIssue
  | getPullRequest | listPullRequests | getPullRequestFiles
  | getPullRequestStatus | getPullRequestComments | getPullRequestReviews
  | mergePullRequest | updatePullRequestBranch | createPullRequestReview
  | createPullRequest
  | searchRepositories | getFileContents | listCommits
  | createOrUpdateFile | createRepository | forkRepository | createBranch
  | pushFiles
  | searchCode | searchUsers
  | getMe
  | getCodeScanningAlert | listCodeScanningAlerts
deriving DecidableEq, Fintype

/-- A tool is mutating exactly when its registration in NewServer sits
inside one of the three blocks guarded by the readOnly flag. -/
def ToolId.isMutating : ToolId → Bool
  | .createIssue | .addIssueComment | .updateIssue
  | .mergePullRequest | .updatePullRequestBranch | .createPullRequestReview
  | .createPullRequest
  | .createOrUpdateFile | .createRepository | .forkRepository
  | .createBranch | .pushFiles => true
  | _ => false

/-- The ordered sequence of addToolIfIncluded calls NewServer makes, with
the three mutating blocks skipped when readOnly is set, exactly as the
source interleaves them. -/
def registrationSequence (readOnly : Bool) : List ToolId :=
  [.getIssue, .searchIssues, .listIssues] ++
  (if readOnly then []
   else [.createIssue, .addIssueComment, .updateIssue]) ++
  [.getPullRequest, .listPullRequests, .getPullRequestFiles,
   .getPullRequestStatus, .getPullRequestComments, .getPullRequestReviews] ++
  (if readOnly then []
   else [.mergePullRequest, .updatePullRequestBranch,
         .createPullRequestReview, .createPullRequest]) ++
  [.searchRepositories, .getFileContents, .listCommits] ++
  (if readOnly then []
   else [.createOrUpdateFile, .createRepository, .forkRepository,
         .createBranch, .pushFiles]) ++
  [.searchCode, .searchUsers, .getMe, .getCodeScanningAlert,
   .listCodeScanningAlerts]

/-- The catalog NewServer builds: it walks the registration sequence and
adds each tool whose name passes shouldIncludeTool for the parsed include
and exclude lists. Per-tool names live in source files outside server.go,
so the assignment of names to tools is a parameter. -/
def NewServerCatalog (toolName : ToolId → String) (readOnly : Bool)
    (excludeTools includeTools : String) : List ToolId :=
  (registrationSequence readOnly).filter
    (fun tid =>
      shouldIncludeTool (parseToolList includeTools)
        (parseToolList excludeTools) (toolName tid))

/-- C1: for every include list, exclude list and operation name,
shouldIncludeTool returns include-membership whenever the include list is
non-empty (the exclude list is never consulted in that case) and returns
the negation of exclude-membership whenever the include list is empty; in
particular with include a and exclude a,b the tool a is exposed and b is
not. -/
theorem C1_shouldIncludeTool (inc exc : List String) (name : String) :
    (inc ≠ [] → shouldIncludeTool inc exc name = inc.contains name) ∧
    (inc = [] → shouldIncludeTool inc exc name = !(exc.contains name)) ∧
    shouldIncludeTool ["a"] ["a", "b"] "a" = true ∧
    shouldIncludeTool ["a"] ["a", "b"] "b" = false := by
  refine ⟨?_, ?_, by decide, by decide⟩
  · intro h
    have hl : inc.length > 0 := List.length_pos.mpr h
    simp [shouldIncludeTool, hl]
  · intro h
    subst h
    simp [shouldIncludeTool]

/-- Witness for C1 at a concrete configuration. -/
theorem C1_shouldIncludeTool_witness :
    shouldIncludeTool ["a"] ["a", "b"] "b" = (["a"].contains "b") :=
  (C1_shouldIncludeTool ["a"] ["a", "b"] "b").1 (by decide)

/-- C2: for every argument bag and parameter name, requiredParam fails with
the missing-parameter error when the name is absent, fails with the
type-mismatch error when the stored value does not assert to the target
type, fails with the missing-parameter error when the asserted value equals
the zero value of the target type, and otherwise succeeds returning exactly
the stored value; the zero values of the three instantiations are the empty
string, the number 0 and the boolean false. -/
theorem C2_requiredParam {T : Type} [DecidableEq T] (gt : GoType T)
    (r : ArgBag) (p : String) :
    goString.zero = "" ∧ goFloat.zero = 0 ∧ goBool.zero = false ∧
    (r p = none →
      requiredParam gt r p = (gt.zero, some (.missingParameter p))) ∧
    (∀ v, r p = some v → gt.cast v = none →
      requiredParam gt r p = (gt.zero, some (.wrongType p))) ∧
    (∀ v x, r p = some v → gt.cast v = some x → x = gt.zero →
      requiredParam gt r p = (gt.zero, some (.missingParameter p))) ∧
    (∀ v x, r p = some v → gt.cast v = some x → x ≠ gt.zero →
      requiredParam gt r p = (x, none)) := by
  refine ⟨rfl, rfl, rfl, ?_, ?_, ?_, ?_⟩
  · intro h
    simp [requiredParam, h]
  · intro v hv hc
    simp [requiredParam, hv, hc]
  · intro v x hv hc hx
    simp [requiredParam, hv, hc, hx]
  · intro v x hv hc hx
    simp [requiredParam, hv, hc, hx]

/-- Witness for C2: a present non-empty string is returned exactly. -/
theorem C2_requiredParam_witness :
    requiredParam goString
      (fun q => if q = "owner" then some (DynValue.str "me") else none)
      "owner" = ("me", none) :=
  (C2_requiredParam goString
    (fun q => if q = "owner" then some (DynValue.str "me") else none)
    "owner").2.2.2.2.2.2 (DynValue.str "me") "me" rfl rfl (by decide)

/-- C7: for every argument bag and parameter name, optionalParam returns the
zero value of the target type without error when the name is absent, fails
with the type-mismatch error when the stored value does not assert to the
target type, and otherwise returns the asserted value even when it is the
zero value: the empty-means-missing rule is never applied. -/
theorem C7_optionalParam {T : Type} (gt : GoType T) (r : ArgBag)
    (p : String) :
    (r p = none → optionalParam gt r p = (gt.zero, none)) ∧
    (∀ v, r p = some v → gt.cast v = none →
      optionalParam gt r p = (gt.zero, some (.wrongType p))) ∧
    (∀ v x, r p = some v → gt.cast v = some x →
      optionalParam gt r p = (x, none)) := by
  refine ⟨?_, ?_, ?_⟩
  · intro h
    simp [optionalParam, h]
  · intro v hv hc
    simp [optionalParam, hv, hc]
  · intro v x hv hc
    simp [optionalParam, hv, hc]

/-- Witness for C7: a present empty string (the zero value) is returned
successfully, not collapsed to missing. -/
theorem C7_optionalParam_witness :
    optionalParam goString
      (fun q => if q = "branch" then some (DynValue.str "") else none)
      "branch" = ("", none) :=
  (C7_optionalParam goString
    (fun q => if q = "branch" then some (DynValue.str "") else none)
    "branch").2.2 (DynValue.str "") "" rfl rfl

/-- C4: for every argument bag, requiredInt returns the stored Number
truncated toward zero whenever it is non-zero, fails with the
missing-parameter error when the stored Number is 0, and fails with the
type-mismatch error when the stored value is not a Number; concretely the
Number 5 yields the int 5 and the Number 59/10 yields the int 5
(truncation, not rounding). -/
theorem C4_requiredInt (r : ArgBag) (p : String) :
    (∀ q, r p = some (.num q) → q ≠ 0 →
      requiredInt r p = (ratTrunc q, none)) ∧
    (r p = some (.num 0) →
      requiredInt r p = (0, some (.missingParameter p))) ∧
    (∀ v, r p = some v → v.asNum = none →
      requiredInt r p = (0, some (.wrongType p))) ∧
    requiredInt
      (fun s => if s = "n"
        then some (.num (Rat.mk' 5 1 (by decide) (by decide))) else none)
      "n" = (5, none) ∧
    requiredInt
      (fun s => if s = "n"
        then some (.num (Rat.mk' 59 10 (by decide) (by decide))) else none)
      "n" = (5, none) := by
  refine ⟨?_, ?_, ?_, by decide, by decide⟩
  · intro q hv hq
    simp [requiredInt, requiredParam, goFloat, DynValue.asNum, hv, hq]
  · intro hv
    simp [requiredInt, requiredParam, goFloat, DynValue.asNum, hv]
  · intro v hv hc
    simp [requiredInt, requiredParam, goFloat, hv, hc]

/-- Witness for C4: the Number 59/10 (that is, 5.9) truncates to 5. -/
theorem C4_requiredInt_witness :
    requiredInt
      (fun s => if s = "n"
        then some (.num (Rat.mk' 59 10 (by decide) (by decide))) else none)
      "n" = (ratTrunc (Rat.mk' 59 10 (by decide) (by decide)), none) :=
  (C4_requiredInt
    (fun s => if s = "n"
      then some (.num (Rat.mk' 59 10 (by decide) (by decide))) else none)
    "n").1 (Rat.mk' 59 10 (by decide) (by decide)) rfl (by decide)

/-- C5 counterexample: with the parameter present as the Number 9/10 (that
is, 0.9) and default 10, optionalIntParamWithDefault returns the default 10,
not the truncation 0 of the stored Number, although 9/10 is a present
Number different from the Number 0. -/
theorem C5_counterexample :
    optionalIntParamWithDefault
      (fun s => if s = "x"
        then some (.num (Rat.mk' 9 10 (by decide) (by decide))) else none)
      "x" 10 = (10, none) ∧
    ratTrunc (Rat.mk' 9 10 (by decide) (by decide)) = 0 ∧
    Rat.mk' 9 10 (by decide) (by decide) ≠ (0 : Rat) ∧
    optionalIntParamWithDefault
      (fun s => if s = "x"
        then some (.num (Rat.mk' 9 10 (by decide) (by decide))) else none)
      "x" 10 ≠ (ratTrunc (Rat.mk' 9 10 (by decide) (by decide)), none) := by
  refine ⟨by decide, by decide, by decide, by decide⟩

/-- C5 amended: optionalIntParamWithDefault returns the default when the
name is absent and, more generally, whenever the name is present mapped to
any Number whose truncation toward zero is 0 (including the literal Number
0); a present Number with non-zero truncation is returned truncated, and a
present non-Number fails with the type-mismatch error. -/
theorem C5_optionalIntParamWithDefault (r : ArgBag) (p : String) (d : Int) :
    (r p = none → optionalIntParamWithDefault r p d = (d, none)) ∧
    (∀ q, r p = some (.num q) → ratTrunc q = 0 →
      optionalIntParamWithDefault r p d = (d, none)) ∧
    (∀ q, r p = some (.num q) → ratTrunc q ≠ 0 →
      optionalIntParamWithDefault r p d = (ratTrunc q, none)) ∧
    (∀ v, r p = some v → v.asNum = none →
      optionalIntParamWithDefault r p d = (0, some (.wrongType p))) := by
  refine ⟨?_, ?_, ?_, ?_⟩
  · intro h
    simp [optionalIntParamWithDefault, optionalIntParam, optionalParam,
      goFloat, h, ratTrunc]
  · intro q hv ht
    simp [optionalIntParamWithDefault, optionalIntParam, optionalParam,
      goFloat, DynValue.asNum, hv, ht]
  · intro q hv ht
    simp [optionalIntParamWithDefault, optionalIntParam, optionalParam,
      goFloat, DynValue.asNum, hv, ht]
  · intro v hv hc
    simp [optionalIntParamWithDefault, optionalIntParam, optionalParam,
      goFloat, hv, hc]

/-- Witness for C5 amended: absent parameter yields the default 10, and an
explicit Number 0 also yields the default 10. -/
theorem C5_optionalIntParamWithDefault_witness :
    optionalIntParamWithDefault (fun _ => none) "x" 10 = (10, none) ∧
    optionalIntParamWithDefault
      (fun s => if s = "x" then some (.num 0) else none) "x" 10
      = (10, none) :=
  ⟨(C5_optionalIntParamWithDefault (fun _ => none) "x" 10).1 rfl,
   (C5_optionalIntParamWithDefault
     (fun s => if s = "x" then some (.num 0) else none) "x" 10).2.1
     0 rfl (by decide)⟩

/-- C9: for every argument bag where the parameter is present mapped to any
Number whose truncation toward zero is 0 (for example 9/10 or -1/2, not
only the literal 0), optionalIntParamWithDefault returns the default,
because the truncation to int happens before the zero check. -/
theorem C9_truncBeforeZeroCheck (r : ArgBag) (p : String) (d : Int)
    (q : Rat) (hv : r p = some (.num q)) (ht : ratTrunc q = 0) :
    optionalIntParamWithDefault r p d = (d, none) := by
  simp [optionalIntParamWithDefault, optionalIntParam, optionalParam,
    goFloat, DynValue.asNum, hv, ht]

/-- Witness for C9 at the Numbers 9/10 and -1/2 with default 30. -/
theorem C9_truncBeforeZeroCheck_witness :
    optionalIntParamWithDefault
      (fun s => if s = "perPage"
        then some (.num (Rat.mk' 9 10 (by decide) (by decide))) else none)
      "perPage" 30 = (30, none) ∧
    optionalIntParamWithDefault
      (fun s => if s = "perPage"
        then some (.num (Rat.mk' (-1) 2 (by decide) (by decide))) else none)
      "perPage" 30 = (30, none) :=
  ⟨C9_truncBeforeZeroCheck
     (fun s => if s = "perPage"
       then some (.num (Rat.mk' 9 10 (by decide) (by decide))) else none)
     "perPage" 30 (Rat.mk' 9 10 (by decide) (by decide)) rfl (by decide),
   C9_truncBeforeZeroCheck
     (fun s => if s = "perPage"
       then some (.num (Rat.mk' (-1) 2 (by decide) (by decide))) else none)
     "perPage" 30 (Rat.mk' (-1) 2 (by decide) (by decide)) rfl (by decide)⟩

/-- If some element of a dynamic slice does not assert to string, the
element-wise coercion fails as a whole. -/
theorem coerceStringList_eq_none_of_mem {ds : List DynValue}
    (h : ∃ d ∈ ds, d.asString = none) : coerceStringList ds = none := by
  induction ds with
  | nil => simp at h
  | cons d ds ih =>
    rcases h with ⟨e, he, hne⟩
    rcases List.mem_cons.mp he with rfl | hmem
    · simp [coerceStringList, hne]
    · cases hd : d.asString with
      | none => simp [coerceStringList, hd]
      | some s => simp [coerceStringList, hd, ih ⟨e, hmem, hne⟩]

/-- C6: for every argument bag, optionalStringArrayParam returns the empty
sequence when the name is absent, returns a stored native string slice
as-is, and when the stored value is a slice of dynamic values containing
any element that does not assert to string, fails with the type-mismatch
error and returns no partial array (all-or-nothing). -/
theorem C6_optionalStringArrayParam (r : ArgBag) (p : String) :
    (r p = none → optionalStringArrayParam r p = ([], none)) ∧
    (∀ xs, r p = some (.strArray xs) →
      optionalStringArrayParam r p = (xs, none)) ∧
    (∀ ds, r p = some (.anyArray ds) → (∃ d ∈ ds, d.asString = none) →
      optionalStringArrayParam r p = ([], some (.elemNotString p))) := by
  refine ⟨?_, ?_, ?_⟩
  · intro h
    simp [optionalStringArrayParam, h]
  · intro xs hv
    simp [optionalStringArrayParam, hv]
  · intro ds hv hex
    simp [optionalStringArrayParam, hv, coerceStringList_eq_none_of_mem hex]

/-- Witness for C6: a native slice of the strings a, b is returned as-is,
and the heterogeneous slice of the Number 1 and the string b fails with the
type-mismatch error, with the empty sequence alongside. -/
theorem C6_optionalStringArrayParam_witness :
    optionalStringArrayParam
      (fun s => if s = "labels"
        then some (.strArray ["a", "b"]) else none) "labels"
      = (["a", "b"], none) ∧
    optionalStringArrayParam
      (fun s => if s = "labels"
        then some (.anyArray [.num 1, .str "b"]) else none) "labels"
      = ([], some (.elemNotString "labels")) :=
  ⟨(C6_optionalStringArrayParam
     (fun s => if s = "labels"
       then some (.strArray ["a", "b"]) else none) "labels").2.1
     ["a", "b"] rfl,
   (C6_optionalStringArrayParam
     (fun s => if s = "labels"
       then some (.anyArray [.num 1, .str "b"]) else none) "labels").2.2
     [.num 1, .str "b"] rfl
     ⟨.num 1, List.mem_cons_self _ _, rfl⟩⟩

/-- C10: for every argument bag where the parameter is present but the
stored value is neither a native string slice nor a slice of dynamic values
(for example a bare string, number or boolean), optionalStringArrayParam
fails with the could-not-be-coerced type-mismatch error and returns the
empty sequence alongside the error. -/
theorem C10_optionalStringArrayParam_default (r : ArgBag) (p : String)
    (v : DynValue) (hv : r p = some v)
    (h1 : ∀ xs, v ≠ DynValue.strArray xs)
    (h2 : ∀ ds, v ≠ DynValue.anyArray ds) :
    optionalStringArrayParam r p = ([], some (.notStringArray p)) := by
  cases v with
  | str s => simp [optionalStringArrayParam, hv]
  | num q => simp [optionalStringArrayParam, hv]
  | boolean b => simp [optionalStringArrayParam, hv]
  | strArray xs => exact absurd rfl (h1 xs)
  | anyArray ds => exact absurd rfl (h2 ds)

/-- Witness for C10 at a bare string value. -/
theorem C10_optionalStringArrayParam_default_witness :
    optionalStringArrayParam
      (fun s => if s = "labels" then some (.str "a") else none) "labels"
      = ([], some (.notStringArray "labels")) :=
  C10_optionalStringArrayParam_default
    (fun s => if s = "labels" then some (.str "a") else none) "labels"
    (.str "a") rfl (fun xs h => by cases h) (fun ds h => by cases h)

/-- A mutating tool appears in the registration sequence exactly when the
readOnly flag is off; every tool appears when the flag is off. -/
theorem mutating_mem_registrationSequence :
    ∀ tid : ToolId, tid.isMutating = true →
      ∀ ro : Bool, (tid ∈ registrationSequence ro ↔ ro = false) := by
  decide

/-- C3: for every tool-name assignment, every configuration and every
mutating tool, the tool is absent from the catalog NewServer builds
whenever readOnly is set, and it is registered exactly when readOnly is
false and shouldIncludeTool accepts its name — failing either condition
silently omits it (the build is total; no error is raised). -/
theorem C3_readOnlyGating (toolName : ToolId → String) (ro : Bool)
    (exc inc : String) (tid : ToolId) (h : tid.isMutating = true) :
    (ro = true → tid ∉ NewServerCatalog toolName ro exc inc) ∧
    (tid ∈ NewServerCatalog toolName ro exc inc ↔
      ro = false ∧
      shouldIncludeTool (parseToolList inc) (parseToolList exc)
        (toolName tid) = true) := by
  have key : tid ∈ NewServerCatalog toolName ro exc inc ↔
      ro = false ∧
      shouldIncludeTool (parseToolList inc) (parseToolList exc)
        (toolName tid) = true := by
    unfold NewServerCatalog
    rw [List.mem_filter, mutating_mem_registrationSequence tid h ro]
  refine ⟨?_, key⟩
  intro hro hmem
  rcases key.mp hmem with ⟨hf, _⟩
  rw [hro] at hf
  exact Bool.noConfusion hf

/-- Witness for C3: with readOnly set and empty include and exclude lists,
the mutating createIssue tool is not in the catalog. -/
theorem C3_readOnlyGating_witness :
    ToolId.createIssue ∉ NewServerCatalog (fun _ => "t") true "" "" :=
  (C3_readOnlyGating (fun _ => "t") true "" "" .createIssue rfl).1 rfl

/-- C8: two independent catalog builds from identical configuration are
identical in membership and in relative ordering, and the catalog is a
sublist of the declared registration sequence, which itself is a sublist of
the full declared order: the filter only omits tools, never reorders. -/
theorem C8_deterministicOrder (tn tn2 : ToolId → String) (ro ro2 : Bool)
    (exc exc2 inc inc2 : String) :
    (tn = tn2 → ro = ro2 → exc = exc2 → inc = inc2 →
      NewServerCatalog tn ro exc inc = NewServerCatalog tn2 ro2 exc2 inc2) ∧
    List.Sublist (NewServerCatalog tn ro exc inc)
      (registrationSequence ro) ∧
    List.Sublist (registrationSequence ro) (registrationSequence false) := by
  refine ⟨?_, ?_, ?_⟩
  · rintro rfl rfl rfl rfl
    rfl
  · unfold NewServerCatalog
    exact List.filter_sublist _
  · cases ro
    · exact List.Sublist.refl _
    · decide

/-- Witness for C8: two builds from one concrete configuration coincide. -/
theorem C8_deterministicOrder_witness :
    NewServerCatalog (fun _ => "t") false "" ""
      = NewServerCatalog (fun _ => "t") false "" "" :=
  (C8_deterministicOrder (fun _ => "t") (fun _ => "t") false false
    "" "" "" "").1 rfl rfl rfl rfl
